import Mathlib

/-!
Verification of the ManoMonitor core algorithms against their specification.

The Python modules `manomonitor/utils/positioning.py`,
`manomonitor/utils/mac_fingerprinting.py` and `manomonitor/utils/geolocation.py`
are shallowly embedded here.  Floating-point arithmetic is idealised as real
arithmetic (`ℝ`) where the code uses transcendental functions, and as rational
arithmetic (`ℚ`) where the code only adds, multiplies and divides, so that the
embedded functions evaluate on concrete inputs.  Python `int` values embed as
`ℤ`/`ℕ`, optional values as `Option`, and functions that swallow exceptions and
return `None` become `Option`-valued functions.
-/

/-! ## Geodesy primitives (positioning.py, `GeoPoint`) -/

/-- Embedding of Python `math.radians`. -/
noncomputable def radians (x : ℝ) : ℝ := x * Real.pi / 180

/-- Embedding of Python `math.degrees`. -/
noncomputable def degrees (x : ℝ) : ℝ := x * 180 / Real.pi

/-- Embedding of Python `math.atan2 y x` (two-argument arctangent with the
usual quadrant conventions; `atan2 0 0 = 0` as in CPython). -/
noncomputable def atan2 (y x : ℝ) : ℝ :=
  if 0 < x then Real.arctan (y / x)
  else if x < 0 ∧ 0 ≤ y then Real.arctan (y / x) + Real.pi
  else if x < 0 ∧ y < 0 then Real.arctan (y / x) - Real.pi
  else if x = 0 ∧ 0 < y then Real.pi / 2
  else if x = 0 ∧ y < 0 then -(Real.pi / 2)
  else 0

/-- `GeoPoint` from positioning.py: a latitude/longitude pair in degrees. -/
structure GeoPoint where
  latitude : ℝ
  longitude : ℝ

/-- `GeoPoint.distance_to`: Haversine distance in meters, Earth radius
6,371,000 m, exactly as in the source. -/
noncomputable def GeoPoint.distance_to (p other : GeoPoint) : ℝ :=
  let R : ℝ := 6371000
  let lat1 := radians p.latitude
  let lat2 := radians other.latitude
  let delta_lat := radians (other.latitude - p.latitude)
  let delta_lon := radians (other.longitude - p.longitude)
  let a := Real.sin (delta_lat / 2) ^ 2 +
    Real.cos lat1 * Real.cos lat2 * Real.sin (delta_lon / 2) ^ 2
  let c := 2 * atan2 (Real.sqrt a) (Real.sqrt (1 - a))
  R * c

/-- `GeoPoint.point_at_distance_and_bearing`: destination point at a given
distance (meters) and bearing (radians) from `p`. -/
noncomputable def GeoPoint.point_at_distance_and_bearing
    (p : GeoPoint) (distance bearing : ℝ) : GeoPoint :=
  let R : ℝ := 6371000
  let lat1 := radians p.latitude
  let lon1 := radians p.longitude
  let lat2 := Real.arcsin (Real.sin lat1 * Real.cos (distance / R) +
    Real.cos lat1 * Real.sin (distance / R) * Real.cos bearing)
  let lon2 := lon1 + atan2
    (Real.sin bearing * Real.sin (distance / R) * Real.cos lat1)
    (Real.cos (distance / R) - Real.sin lat1 * Real.sin lat2)
  { latitude := degrees lat2, longitude := degrees lon2 }

/-- `GeoPoint.bearing_to`: initial bearing from `p` to `other` in radians. -/
noncomputable def GeoPoint.bearing_to (p other : GeoPoint) : ℝ :=
  let lat1 := radians p.latitude
  let lat2 := radians other.latitude
  let delta_lon := radians (other.longitude - p.longitude)
  let x := Real.sin delta_lon * Real.cos lat2
  let y := Real.cos lat1 * Real.sin lat2 -
    Real.sin lat1 * Real.cos lat2 * Real.cos delta_lon
  atan2 x y

/-! ## Positioning engine (positioning.py) -/

/-- `MonitorReading`: a signal reading from one monitor.  The Python default
`estimated_distance=None` is passed explicitly as `none` at call sites. -/
structure MonitorReading where
  monitor_location : GeoPoint
  signal_strength : ℤ
  estimated_distance : Option ℝ

/-- `PositionEstimate`: estimated position with accuracy (m) and confidence. -/
structure PositionEstimate where
  location : GeoPoint
  accuracy : ℝ
  confidence : ℝ

/-- `signal_to_distance` from positioning.py: log-distance path-loss model,
clamped to the indoor range.  Source defaults are `tx_power = -59`,
`path_loss_exponent = 3.0`; call sites pass them explicitly here. -/
noncomputable def signal_to_distance
    (signal_dbm tx_power : ℤ) (path_loss_exponent : ℝ) : ℝ :=
  if tx_power ≤ signal_dbm then 0.5
  else
    let exponent := ((tx_power : ℝ) - (signal_dbm : ℝ)) / (10 * path_loss_exponent)
    let distance := (10 : ℝ) ^ exponent
    min (max distance 0.5) 100

/-- The idiom `reading.estimated_distance or signal_to_distance(reading.signal_strength)`
used at positioning.py lines 141, 142 and 257: a missing *or zero* (falsy)
estimated distance falls back to the signal model with the default
calibration, any other stored value is used as-is. -/
noncomputable def modeledDistance (r : MonitorReading) : ℝ :=
  match r.estimated_distance with
  | none => signal_to_distance r.signal_strength (-59) 3
  | some d => if d = 0 then signal_to_distance r.signal_strength (-59) 3 else d

/-- `bilaterate` from positioning.py: position from two readings via
circle–circle intersection, with disjoint- and nested-circle fallbacks. -/
noncomputable def bilaterate (reading1 reading2 : MonitorReading)
    (prefer_inside : Option GeoPoint) : Option PositionEstimate :=
  let d1 := modeledDistance reading1
  let d2 := modeledDistance reading2
  let p1 := reading1.monitor_location
  let p2 := reading2.monitor_location
  let monitor_distance := p1.distance_to p2
  if monitor_distance = 0 then none
  else if d1 + d2 < monitor_distance then
    -- circles don't intersect: distance-weighted point on the connecting line
    let total := d1 + d2
    let weight1 := if 0 < total then 1 - d1 / total else 0.5
    let bearing := p1.bearing_to p2
    let midpoint_dist := monitor_distance * weight1
    let location := p1.point_at_distance_and_bearing midpoint_dist bearing
    some { location := location, accuracy := max d1 d2, confidence := 0.3 }
  else if monitor_distance < |d1 - d2| then
    -- one circle inside the other: edge of the smaller circle
    let location :=
      if d1 < d2 then p1.point_at_distance_and_bearing d1 (p1.bearing_to p2)
      else p2.point_at_distance_and_bearing d2 (p2.bearing_to p1)
    some { location := location, accuracy := min d1 d2, confidence := 0.4 }
  else
    -- true circle-circle intersection
    let d := monitor_distance
    let a := (d1 * d1 - d2 * d2 + d * d) / (2 * d)
    let h_squared := d1 * d1 - a * a
    let h_squared' := if h_squared < 0 then 0 else h_squared
    let h := Real.sqrt h_squared'
    let bearing_p1_p2 := p1.bearing_to p2
    let mid_point := p1.point_at_distance_and_bearing a bearing_p1_p2
    let intersection1 :=
      mid_point.point_at_distance_and_bearing h (bearing_p1_p2 + Real.pi / 2)
    let intersection2 :=
      mid_point.point_at_distance_and_bearing h (bearing_p1_p2 - Real.pi / 2)
    let chosen :=
      match prefer_inside with
      | some pref =>
        if pref.distance_to intersection1 < pref.distance_to intersection2
        then intersection1 else intersection2
      | none =>
        { latitude := (intersection1.latitude + intersection2.latitude) / 2,
          longitude := (intersection1.longitude + intersection2.longitude) / 2 }
    let accuracy := intersection1.distance_to intersection2 / 2
    some { location := chosen, accuracy := max accuracy 1,
           confidence := if 0.5 < h then 0.7 else 0.5 }

/-- All unordered pairs of a list in the order produced by the nested
`for i / for j in range(i+1, …)` loops of `calculate_position`. -/
def allPairs {α : Type} : List α → List (α × α)
  | [] => []
  | x :: xs => xs.map (fun y => (x, y)) ++ allPairs xs

/-- The non-null pairwise bilateration estimates collected by
`calculate_position` for three or more readings. -/
noncomputable def pairEstimates (readings : List MonitorReading)
    (home_center : Option GeoPoint) : List PositionEstimate :=
  (allPairs readings).filterMap (fun pr => bilaterate pr.1 pr.2 home_center)

/-- `calculate_position` from positioning.py: dispatch on the number of
readings; three or more readings combine pairwise bilaterations as a
confidence-weighted centroid. -/
noncomputable def calculate_position (readings : List MonitorReading)
    (home_center : Option GeoPoint) : Option PositionEstimate :=
  match readings with
  | [] => none
  | [reading] =>
    let distance := modeledDistance reading
    let location := reading.monitor_location.point_at_distance_and_bearing distance 0
    some { location := location, accuracy := distance * 2, confidence := 0.2 }
  | [r1, r2] => bilaterate r1 r2 home_center
  | _ =>
    let estimates := pairEstimates readings home_center
    if estimates.isEmpty then none
    else
      let total_weight := (estimates.map (fun e => e.confidence)).sum
      if total_weight = 0 then none
      else
        let avg_lat := (estimates.map (fun e => e.location.latitude * e.confidence)).sum / total_weight
        let avg_lon := (estimates.map (fun e => e.location.longitude * e.confidence)).sum / total_weight
        let avg_accuracy := (estimates.map (fun e => e.accuracy * e.confidence)).sum / total_weight
        some { location := { latitude := avg_lat, longitude := avg_lon },
               accuracy := avg_accuracy,
               confidence := min 1 (total_weight / (estimates.length : ℝ)) }

/-! ## MAC fingerprinting (mac_fingerprinting.py) -/

/-- `DeviceFingerprint` from mac_fingerprinting.py.  Float statistics embed
as `ℚ`; the `vendor_prefix` source field (first three MAC bytes) is named
`vendor_oui` here.  `common_ssids` is the (list-valued) SSID collection. -/
structure DeviceFingerprint where
  avg_signal_strength : Option ℚ
  signal_variance : Option ℚ
  avg_probe_interval : Option ℚ
  probe_time_variance : Option ℚ
  vendor_oui : Option String
  device_capabilities : Option String
  common_ssids : List String

/-- Running `(score, factors)` state threaded through the four factor blocks
of `calculate_similarity_score`. -/
abbrev ScoreState := ℚ × ℚ

/-- Signal-strength block of `calculate_similarity_score` (40% weight,
linear credit up to a 10 dBm difference). -/
def signalBlock (fp1 fp2 : DeviceFingerprint) (sf : ScoreState) : ScoreState :=
  match fp1.avg_signal_strength, fp2.avg_signal_strength with
  | some s1, some s2 =>
    let signal_diff := |s1 - s2|
    if signal_diff ≤ 10 then
      let signal_score := 1 - signal_diff / 10
      (sf.1 + signal_score * 0.4, sf.2 + 0.4)
    else
      (sf.1, sf.2 + 0.4)
  | _, _ => sf

/-- Probe-interval block of `calculate_similarity_score` (20% weight,
min/max ratio of the mean intervals, only when both means are positive). -/
def intervalBlock (fp1 fp2 : DeviceFingerprint) (sf : ScoreState) : ScoreState :=
  match fp1.avg_probe_interval, fp2.avg_probe_interval with
  | some i1, some i2 =>
    if 0 < i1 ∧ 0 < i2 then
      (sf.1 + (min i1 i2 / max i1 i2) * 0.2, sf.2 + 0.2)
    else sf
  | _, _ => sf

/-- SSID-overlap block of `calculate_similarity_score` (30% weight, Jaccard
index of the two SSID sets, only when both lists are non-empty). -/
def ssidBlock (fp1 fp2 : DeviceFingerprint) (sf : ScoreState) : ScoreState :=
  if fp1.common_ssids ≠ [] ∧ fp2.common_ssids ≠ [] then
    let ssid_set1 := fp1.common_ssids.toFinset
    let ssid_set2 := fp2.common_ssids.toFinset
    let inter := ssid_set1 ∩ ssid_set2
    let uni := ssid_set1 ∪ ssid_set2
    if uni ≠ ∅ then
      let jaccard := (inter.card : ℚ) / (uni.card : ℚ)
      (sf.1 + jaccard * 0.3, sf.2 + 0.3)
    else sf
  else sf

/-- Vendor-OUI block of `calculate_similarity_score` (10% weight, exact
match; the factor counts whenever both fingerprints carry a truthy prefix). -/
def vendorBlock (fp1 fp2 : DeviceFingerprint) (sf : ScoreState) : ScoreState :=
  match fp1.vendor_oui, fp2.vendor_oui with
  | some v1, some v2 =>
    if v1 ≠ "" ∧ v2 ≠ "" then
      ((if v1 = v2 then sf.1 + 0.1 else sf.1), sf.2 + 0.1)
    else sf
  | _, _ => sf

/-- `calculate_similarity_score` from mac_fingerprinting.py: the four factor
blocks run in sequence on `(score, factors) = (0, 0)`, then the score is
normalised by the factors that were actually counted. -/
def calculate_similarity_score (fp1 fp2 : DeviceFingerprint) : ℚ :=
  let sf := vendorBlock fp1 fp2 (ssidBlock fp1 fp2 (intervalBlock fp1 fp2 (signalBlock fp1 fp2 (0, 0))))
  if 0 < sf.2 then sf.1 / sf.2 else 0

/-- Python `str.split(sep)` for a one-character separator, on the character
list of the string: structural recursion so concrete splits evaluate. -/
def splitChar (sep : Char) : List Char → List (List Char)
  | [] => [[]]
  | c :: rest =>
    let r := splitChar sep rest
    if c = sep then [] :: r
    else
      match r with
      | [] => [[c]]
      | h :: t => (c :: h) :: t

/-- Python `s.split(sep)` for a one-character separator `sep` (the only form
the embedded modules use: `":"`, `","` and `"*"`). -/
def strSplit (s : String) (sep : Char) : List String :=
  (splitChar sep s.data).map String.mk

/-- Value of a hexadecimal digit character, `none` for any other character. -/
def hexDigitVal (c : Char) : Option ℕ :=
  if '0' ≤ c ∧ c ≤ '9' then some (c.toNat - 48)
  else if 'a' ≤ c ∧ c ≤ 'f' then some (c.toNat - 97 + 10)
  else if 'A' ≤ c ∧ c ≤ 'F' then some (c.toNat - 65 + 10)
  else none

/-- Embedding of Python `int(s, 16)` on plain strings of hexadecimal digits
(the shape the first group of a MAC address takes); any other character, or
an empty string, raises `ValueError` in Python and yields `none` here. -/
def parseHexNat (s : String) : Option ℕ :=
  if s.isEmpty then none
  else s.data.foldl
    (fun acc c => acc.bind (fun n => (hexDigitVal c).map (fun d => 16 * n + d)))
    (some 0)

/-- `is_randomized_mac` from mac_fingerprinting.py: parse the first
colon-separated group as hexadecimal and test the locally-administered bit
`0b00000010`; a parse failure (Python `ValueError`) returns `False`. -/
def is_randomized_mac (mac_address : String) : Bool :=
  match (strSplit mac_address ':').head? with
  | none => false
  | some first_group =>
    match parseHexNat first_group with
    | none => false
    | some first_byte => first_byte &&& 2 ≠ 0

/-- The fields of a persisted `Asset` that `group_randomized_macs` reads or
writes; timestamps embed as `ℚ` (seconds). -/
structure AssetRec where
  mac_address : String
  last_seen : ℚ
  device_group_id : Option ℕ

/-- The fields of a persisted `DeviceGroup` that the matching-group branch of
`group_randomized_macs` reads or writes. -/
structure DeviceGroupRec where
  id : ℕ
  primary_mac : Option String
  last_seen : ℚ
  times_seen : ℕ

/-- Python truthiness of the `primary_mac` column: `None` and the empty
string are falsy. -/
def primaryMacFalsy (m : Option String) : Bool :=
  match m with
  | none => true
  | some s => s = ""

/-- The matching-group branch of `group_randomized_macs`
(mac_fingerprinting.py lines 322–333), as a pure state transition at wall
time `now` (`datetime.utcnow()`): assign the asset to the group, overwrite
the group's `last_seen` with `now`, increment `times_seen`, and then — on the
*already updated* record — promote the asset's MAC to `primary_mac` when
`primary_mac` is falsy or `asset.last_seen > group.last_seen`. -/
def joinExistingGroup (now : ℚ) (asset : AssetRec) (g : DeviceGroupRec) :
    AssetRec × DeviceGroupRec :=
  let asset' := { asset with device_group_id := some g.id }
  let g1 := { g with last_seen := now }
  let g2 := { g1 with times_seen := g1.times_seen + 1 }
  let g3 :=
    if primaryMacFalsy g2.primary_mac ∨ g2.last_seen < asset.last_seen then
      { g2 with primary_mac := some asset.mac_address }
    else g2
  (asset', g3)

/-! ## NMEA parsing (geolocation.py) -/

/-- `GeoLocation` from geolocation.py: latitude, longitude, accuracy in
meters; float values embed as `ℚ` (NMEA fields are finite decimals). -/
structure GeoLocation where
  latitude : ℚ
  longitude : ℚ
  accuracy : ℚ

/-- Value of a decimal digit character, `none` for any other character. -/
def digitVal (c : Char) : Option ℕ :=
  if '0' ≤ c ∧ c ≤ '9' then some (c.toNat - 48) else none

/-- Digits folded into a natural number; `none` as soon as one character is
not a digit. -/
def digitsToNat (l : List Char) : Option ℕ :=
  l.foldl (fun acc c => acc.bind (fun n => (digitVal c).map (fun d => 10 * n + d)))
    (some 0)

/-- Embedding of Python `int(s)` on optionally-signed digit strings (the
shape NMEA integer fields take); anything else raises `ValueError` in Python
and yields `none` here. -/
def parseIntStr (s : String) : Option ℤ :=
  match s.data with
  | [] => none
  | '-' :: rest => if rest = [] then none else (digitsToNat rest).map (fun n => -(n : ℤ))
  | l => (digitsToNat l).map (fun n => (n : ℤ))

/-- The sign, integer digits, fraction digits and fraction length of a plain
decimal literal `[-]digits[.digits]`; `none` when the text is not of that
shape.  This is the string-level half of the Python `float(s)` embedding. -/
def parseDecimalParts (s : String) : Option (Bool × ℕ × ℕ × ℕ) :=
  let core : List Char → Option (ℕ × ℕ × ℕ) := fun l =>
    match l.splitOn '.' with
    | [intPart] =>
      if intPart = [] then none else (digitsToNat intPart).map (fun n => (n, 0, 0))
    | [intPart, fracPart] =>
      if intPart = [] ∧ fracPart = [] then none
      else
        match digitsToNat intPart, digitsToNat fracPart with
        | some n, some f => some (n, f, fracPart.length)
        | _, _ => none
    | _ => none
  match s.data with
  | [] => none
  | '-' :: rest => (core rest).map (fun p => (true, p))
  | l => (core l).map (fun p => (false, p))

/-- Embedding of Python `float(s)` on plain decimal literals
`[-]digits[.digits]` (the shape NMEA numeric fields take); malformed text
raises `ValueError` in Python and yields `none` here. -/
def parseDecimalStr (s : String) : Option ℚ :=
  (parseDecimalParts s).map (fun p =>
    let mag : ℚ := (p.2.1 : ℚ) + (p.2.2.1 : ℚ) / (10 : ℚ) ^ p.2.2.2
    if p.1 then -mag else mag)

/-- `parse_nmea_coordinate` from geolocation.py: split `DDMM.MMMM` at two
digits before the decimal point, convert degrees+minutes to decimal degrees,
and flip the sign for the `S`/`W` hemispheres. -/
def parse_nmea_coordinate (coord direction : String) : Option ℚ :=
  if coord = "" ∨ direction = "" then none
  else
    match coord.data.findIdx? (fun c => c = '.') with
    | none => none
    | some dot_pos =>
      if dot_pos < 2 then none
      else
        match parseIntStr (String.mk (coord.data.take (dot_pos - 2))),
              parseDecimalStr (String.mk (coord.data.drop (dot_pos - 2))) with
        | some deg, some minutes =>
          let decimal := (deg : ℚ) + minutes / 60
          some (if direction = "S" ∨ direction = "W" then -decimal else decimal)
        | _, _ => none

/-- The fix-quality field of a GGA sentence:
`int(parts[6]) if parts[6] else 0`, where a `ValueError` escapes to the
enclosing handler (hence `none`). -/
def ggaQuality (s : String) : Option ℤ :=
  if s = "" then some 0 else parseIntStr s

/-- The HDOP field of a GGA sentence: `float(parts[8]) if parts[8] else 5.0`,
where a `ValueError` escapes to the enclosing handler (hence `none`). -/
def ggaHdop (s : String) : Option ℚ :=
  if s = "" then some 5 else parseDecimalStr s

/-- The checksum-stripping prologue of the NMEA parsers:
`sentence.split('*')[0]` when a `*` is present. -/
def stripChecksum (sentence : String) : String :=
  if sentence.data.contains '*' then (strSplit sentence '*').headD "" else sentence

/-- The comma-separated fields of a GGA sentence after checksum stripping. -/
def ggaParts (sentence : String) : List String :=
  strSplit (stripChecksum sentence) ','

/-- `parse_nmea_gga` from geolocation.py: drop the checksum, split on commas,
require at least 10 fields and a non-zero fix quality, parse both
coordinates, and report accuracy `HDOP * 2.5` meters. -/
def parse_nmea_gga (sentence : String) : Option GeoLocation :=
  let parts := ggaParts sentence
  if parts.length < 10 then none
  else
    match ggaQuality (parts.getD 6 "") with
    | none => none
    | some quality =>
      if quality = 0 then none
      else
        match parse_nmea_coordinate (parts.getD 2 "") (parts.getD 3 ""),
              parse_nmea_coordinate (parts.getD 4 "") (parts.getD 5 "") with
        | some lat, some lon =>
          match ggaHdop (parts.getD 8 "") with
          | none => none
          | some hdop => some { latitude := lat, longitude := lon, accuracy := hdop * 2.5 }
        | _, _ => none

/-! ## Helper lemmas: similarity score -/

lemma signalBlock_comm (fp1 fp2 : DeviceFingerprint) (sf : ScoreState) :
    signalBlock fp1 fp2 sf = signalBlock fp2 fp1 sf := by
  unfold signalBlock
  cases fp1.avg_signal_strength <;> cases fp2.avg_signal_strength <;>
    simp [abs_sub_comm]

lemma intervalBlock_comm (fp1 fp2 : DeviceFingerprint) (sf : ScoreState) :
    intervalBlock fp1 fp2 sf = intervalBlock fp2 fp1 sf := by
  unfold intervalBlock
  cases fp1.avg_probe_interval <;> cases fp2.avg_probe_interval <;>
    simp [min_comm, max_comm, and_comm]

lemma ssidBlock_comm (fp1 fp2 : DeviceFingerprint) (sf : ScoreState) :
    ssidBlock fp1 fp2 sf = ssidBlock fp2 fp1 sf := by
  unfold ssidBlock
  simp only [and_comm, Finset.inter_comm, Finset.union_comm]

lemma vendorBlock_comm (fp1 fp2 : DeviceFingerprint) (sf : ScoreState) :
    vendorBlock fp1 fp2 sf = vendorBlock fp2 fp1 sf := by
  unfold vendorBlock
  cases h1 : fp1.vendor_oui <;> cases h2 : fp2.vendor_oui <;> simp [and_comm, eq_comm]

lemma similarity_comm (fp1 fp2 : DeviceFingerprint) :
    calculate_similarity_score fp1 fp2 = calculate_similarity_score fp2 fp1 := by
  unfold calculate_similarity_score
  rw [signalBlock_comm, intervalBlock_comm, ssidBlock_comm, vendorBlock_comm]

lemma signalBlock_inv (fp1 fp2 : DeviceFingerprint) (sf : ScoreState)
    (h : 0 ≤ sf.1 ∧ sf.1 ≤ sf.2) :
    0 ≤ (signalBlock fp1 fp2 sf).1 ∧ (signalBlock fp1 fp2 sf).1 ≤ (signalBlock fp1 fp2 sf).2 := by
  obtain ⟨h0, h1⟩ := h
  unfold signalBlock
  cases fp1.avg_signal_strength with
  | none => exact ⟨h0, h1⟩
  | some s1 =>
    cases fp2.avg_signal_strength with
    | none => exact ⟨h0, h1⟩
    | some s2 =>
      by_cases hd : |s1 - s2| ≤ 10
      · have habs : (0:ℚ) ≤ |s1 - s2| := abs_nonneg _
        simp only [hd, if_true]
        constructor
        · nlinarith
        · nlinarith
      · simp only [hd, if_false]
        exact ⟨h0, by linarith⟩

lemma intervalBlock_inv (fp1 fp2 : DeviceFingerprint) (sf : ScoreState)
    (h : 0 ≤ sf.1 ∧ sf.1 ≤ sf.2) :
    0 ≤ (intervalBlock fp1 fp2 sf).1 ∧ (intervalBlock fp1 fp2 sf).1 ≤ (intervalBlock fp1 fp2 sf).2 := by
  obtain ⟨h0, h1⟩ := h
  unfold intervalBlock
  cases fp1.avg_probe_interval with
  | none => exact ⟨h0, h1⟩
  | some i1 =>
    cases fp2.avg_probe_interval with
    | none => exact ⟨h0, h1⟩
    | some i2 =>
      dsimp only
      by_cases hp : 0 < i1 ∧ 0 < i2
      · have hmin : 0 < min i1 i2 := lt_min hp.1 hp.2
        have hmax : 0 < max i1 i2 := lt_of_lt_of_le hmin (min_le_max)
        have hratio0 : 0 ≤ min i1 i2 / max i1 i2 := le_of_lt (div_pos hmin hmax)
        have hratio1 : min i1 i2 / max i1 i2 ≤ 1 := (div_le_one hmax).mpr min_le_max
        rw [if_pos hp]
        exact ⟨by dsimp only; nlinarith, by dsimp only; nlinarith⟩
      · rw [if_neg hp]
        exact ⟨h0, h1⟩

lemma ssidBlock_inv (fp1 fp2 : DeviceFingerprint) (sf : ScoreState)
    (h : 0 ≤ sf.1 ∧ sf.1 ≤ sf.2) :
    0 ≤ (ssidBlock fp1 fp2 sf).1 ∧ (ssidBlock fp1 fp2 sf).1 ≤ (ssidBlock fp1 fp2 sf).2 := by
  obtain ⟨h0, h1⟩ := h
  unfold ssidBlock
  by_cases hne : fp1.common_ssids ≠ [] ∧ fp2.common_ssids ≠ []
  · rw [if_pos hne]
    set s1 := fp1.common_ssids.toFinset
    set s2 := fp2.common_ssids.toFinset
    by_cases hu : s1 ∪ s2 ≠ ∅
    · have hcard : 0 < (s1 ∪ s2).card := Finset.card_pos.mpr (Finset.nonempty_iff_ne_empty.mpr hu)
      have hsub : (s1 ∩ s2).card ≤ (s1 ∪ s2).card :=
        Finset.card_le_card (le_trans Finset.inter_subset_left Finset.subset_union_left)
      have hcardq : (0:ℚ) < ((s1 ∪ s2).card : ℚ) := by exact_mod_cast hcard
      have hj0 : (0:ℚ) ≤ ((s1 ∩ s2).card : ℚ) / ((s1 ∪ s2).card : ℚ) :=
        div_nonneg (by positivity) (le_of_lt hcardq)
      have hj1 : ((s1 ∩ s2).card : ℚ) / ((s1 ∪ s2).card : ℚ) ≤ 1 :=
        (div_le_one hcardq).mpr (by exact_mod_cast hsub)
      rw [if_pos hu]
      exact ⟨by dsimp only; nlinarith, by dsimp only; nlinarith⟩
    · rw [if_neg hu]
      exact ⟨h0, h1⟩
  · rw [if_neg hne]
    exact ⟨h0, h1⟩

lemma vendorBlock_inv (fp1 fp2 : DeviceFingerprint) (sf : ScoreState)
    (h : 0 ≤ sf.1 ∧ sf.1 ≤ sf.2) :
    0 ≤ (vendorBlock fp1 fp2 sf).1 ∧ (vendorBlock fp1 fp2 sf).1 ≤ (vendorBlock fp1 fp2 sf).2 := by
  obtain ⟨h0, h1⟩ := h
  unfold vendorBlock
  cases fp1.vendor_oui with
  | none => exact ⟨h0, h1⟩
  | some v1 =>
    cases fp2.vendor_oui with
    | none => exact ⟨h0, h1⟩
    | some v2 =>
      dsimp only
      by_cases hne : v1 ≠ "" ∧ v2 ≠ ""
      · rw [if_pos hne]
        by_cases heq : v1 = v2
        · rw [if_pos heq]
          exact ⟨by dsimp only; linarith, by dsimp only; linarith⟩
        · rw [if_neg heq]
          exact ⟨by dsimp only; linarith, by dsimp only; linarith⟩
      · rw [if_neg hne]
        exact ⟨h0, h1⟩

lemma similarity_bounds (fp1 fp2 : DeviceFingerprint) :
    0 ≤ calculate_similarity_score fp1 fp2 ∧ calculate_similarity_score fp1 fp2 ≤ 1 := by
  unfold calculate_similarity_score
  have hinv := vendorBlock_inv fp1 fp2 _
    (ssidBlock_inv fp1 fp2 _ (intervalBlock_inv fp1 fp2 _ (signalBlock_inv fp1 fp2 (0, 0) (by norm_num))))
  set sf := vendorBlock fp1 fp2 (ssidBlock fp1 fp2 (intervalBlock fp1 fp2 (signalBlock fp1 fp2 (0, 0))))
  by_cases hpos : 0 < sf.2
  · simp only [hpos, if_true]
    exact ⟨div_nonneg hinv.1 (le_of_lt hpos), (div_le_one hpos).mpr hinv.2⟩
  · simp only [hpos, if_false]
    norm_num

lemma signalBlock_self (fp : DeviceFingerprint) (sf : ScoreState)
    (h : fp.avg_signal_strength.isSome = true) :
    signalBlock fp fp sf = (sf.1 + 0.4, sf.2 + 0.4) := by
  unfold signalBlock
  cases hs : fp.avg_signal_strength with
  | none => rw [hs] at h; simp at h
  | some s => dsimp only; norm_num

lemma intervalBlock_self (fp : DeviceFingerprint) (sf : ScoreState) :
    ∃ w : ℚ, 0 ≤ w ∧ intervalBlock fp fp sf = (sf.1 + w, sf.2 + w) := by
  unfold intervalBlock
  cases hs : fp.avg_probe_interval with
  | none => exact ⟨0, le_refl 0, by simp⟩
  | some i =>
    dsimp only
    by_cases hp : 0 < i ∧ 0 < i
    · refine ⟨0.2, by norm_num, ?_⟩
      rw [if_pos hp, min_self, max_self, div_self (ne_of_gt hp.1)]
      norm_num
    · exact ⟨0, le_refl 0, by rw [if_neg hp]; simp⟩

lemma ssidBlock_self (fp : DeviceFingerprint) (sf : ScoreState)
    (h : fp.common_ssids ≠ []) :
    ssidBlock fp fp sf = (sf.1 + 0.3, sf.2 + 0.3) := by
  unfold ssidBlock
  rw [if_pos ⟨h, h⟩]
  dsimp only
  rw [Finset.inter_self, Finset.union_self]
  have hne : fp.common_ssids.toFinset ≠ ∅ := by
    simpa [List.toFinset_eq_empty_iff] using h
  rw [if_pos hne]
  have hcard : (0:ℚ) < (fp.common_ssids.toFinset.card : ℚ) := by
    exact_mod_cast Finset.card_pos.mpr (Finset.nonempty_iff_ne_empty.mpr hne)
  rw [div_self (ne_of_gt hcard)]
  norm_num

lemma vendorBlock_self (fp : DeviceFingerprint) (sf : ScoreState)
    (v : String) (hv : fp.vendor_oui = some v) (hne : v ≠ "") :
    vendorBlock fp fp sf = (sf.1 + 0.1, sf.2 + 0.1) := by
  unfold vendorBlock
  rw [hv]
  dsimp only
  rw [if_pos ⟨hne, hne⟩, if_pos rfl]

lemma similarity_self (fp : DeviceFingerprint)
    (h1 : fp.avg_signal_strength.isSome = true)
    (h3 : fp.common_ssids ≠ [])
    (v : String) (hv : fp.vendor_oui = some v) (hvne : v ≠ "") :
    calculate_similarity_score fp fp = 1 := by
  have e1 : signalBlock fp fp (0, 0) = ((0.4 : ℚ), (0.4 : ℚ)) := by
    rw [signalBlock_self fp (0, 0) h1]; norm_num
  obtain ⟨w, hw0, e2⟩ := intervalBlock_self fp ((0.4 : ℚ), (0.4 : ℚ))
  have e3 := ssidBlock_self fp (((0.4 : ℚ) + w, (0.4 : ℚ) + w) : ScoreState) h3
  have e4 := vendorBlock_self fp ((((0.4 : ℚ) + w) + 0.3, ((0.4 : ℚ) + w) + 0.3) : ScoreState) v hv hvne
  unfold calculate_similarity_score
  rw [e1, e2]
  dsimp only at e3 e4 ⊢
  rw [e3, e4]
  dsimp only
  have hpos : (0:ℚ) < 0.4 + w + 0.3 + 0.1 := by linarith
  rw [if_pos hpos, div_self (ne_of_gt hpos)]

/-! ## Helper lemmas and fixtures: grouping and NMEA -/

/-- The promotion clause of the matching-group branch is dead code whenever
the asset was last seen no later than `now` and the group already has a
truthy `primary_mac`: the comparison reads the `last_seen` that was just
overwritten with `now`. -/
lemma promotion_dead (now : ℚ) (asset : AssetRec) (g : DeviceGroupRec)
    (hle : asset.last_seen ≤ now) (hmac : primaryMacFalsy g.primary_mac = false) :
    ((joinExistingGroup now asset g).2).primary_mac = g.primary_mac := by
  unfold joinExistingGroup
  dsimp only
  rw [if_neg]
  intro hor
  rcases hor with h | h
  · rw [hmac] at h; exact Bool.false_ne_true h
  · exact absurd hle (not_le.mpr h)

/-- Fixture asset for the C5 evaluation: randomized MAC, last seen at t=100. -/
def c5asset : AssetRec :=
  { mac_address := "02:AA:BB:CC:DD:EE", last_seen := 100, device_group_id := none }

/-- Fixture group for the C5 evaluation: has a primary MAC, last seen at t=50,
so the joining asset is the most recently seen member. -/
def c5group : DeviceGroupRec :=
  { id := 7, primary_mac := some "02:11:22:33:44:55", last_seen := 50, times_seen := 3 }

lemma gga_quality_zero_none (s : String)
    (h : ggaQuality ((ggaParts s).getD 6 "") = some 0) :
    parse_nmea_gga s = none := by
  unfold parse_nmea_gga
  dsimp only
  by_cases hlen : (ggaParts s).length < 10
  · rw [if_pos hlen]
  · rw [if_neg hlen, h]
    dsimp only
    rw [if_pos rfl]

lemma gga_some_shape (s : String) (loc : GeoLocation)
    (h : parse_nmea_gga s = some loc) :
    ∃ hd : ℚ, ggaHdop ((ggaParts s).getD 8 "") = some hd ∧
      loc.accuracy = hd * 2.5 ∧
      parse_nmea_coordinate ((ggaParts s).getD 2 "") ((ggaParts s).getD 3 "") = some loc.latitude ∧
      parse_nmea_coordinate ((ggaParts s).getD 4 "") ((ggaParts s).getD 5 "") = some loc.longitude := by
  unfold parse_nmea_gga at h
  dsimp only at h
  by_cases hlen : (ggaParts s).length < 10
  · rw [if_pos hlen] at h; exact absurd h (by simp)
  · rw [if_neg hlen] at h
    cases hq : ggaQuality ((ggaParts s).getD 6 "") with
    | none => rw [hq] at h; exact absurd h (by simp)
    | some q =>
      rw [hq] at h
      dsimp only at h
      by_cases hq0 : q = 0
      · rw [if_pos hq0] at h; exact absurd h (by simp)
      · rw [if_neg hq0] at h
        cases hlat : parse_nmea_coordinate ((ggaParts s).getD 2 "") ((ggaParts s).getD 3 "") with
        | none => rw [hlat] at h; exact absurd h (by simp)
        | some lat =>
          cases hlon : parse_nmea_coordinate ((ggaParts s).getD 4 "") ((ggaParts s).getD 5 "") with
          | none => rw [hlat, hlon] at h; exact absurd h (by simp)
          | some lon =>
            rw [hlat, hlon] at h
            dsimp only at h
            cases hhd : ggaHdop ((ggaParts s).getD 8 "") with
            | none => rw [hhd] at h; exact absurd h (by simp)
            | some hd =>
              rw [hhd] at h
              dsimp only at h
              obtain rfl : ({ latitude := lat, longitude := lon, accuracy := hd * 2.5 } : GeoLocation) = loc := by
                exact Option.some_injective _ h
              exact ⟨hd, rfl, rfl, rfl, rfl⟩

lemma nmea_sign_flip (coord : String) :
    parse_nmea_coordinate coord "S" = (parse_nmea_coordinate coord "N").map (fun q => -q) ∧
    parse_nmea_coordinate coord "W" = (parse_nmea_coordinate coord "E").map (fun q => -q) := by
  unfold parse_nmea_coordinate
  by_cases hc : coord = ""
  · subst hc
    simp
  · rw [if_neg (by simp [hc]), if_neg (by simp [hc]), if_neg (by simp [hc]),
       if_neg (by simp [hc])]
    cases hf : coord.data.findIdx? (fun c => c = '.') with
    | none => simp
    | some dot_pos =>
      dsimp only
      by_cases hd : dot_pos < 2
      · rw [if_pos hd, if_pos hd, if_pos hd, if_pos hd]; simp
      · rw [if_neg hd, if_neg hd, if_neg hd, if_neg hd]
        cases parseIntStr (String.mk (coord.data.take (dot_pos - 2))) with
        | none => simp
        | some deg =>
          cases parseDecimalStr (String.mk (coord.data.drop (dot_pos - 2))) with
          | none => simp
          | some minutes =>
            dsimp only
            constructor
            · rw [if_pos (Or.inl rfl), if_neg (by decide)]
              simp
            · rw [if_pos (Or.inr rfl), if_neg (by decide)]
              simp

/-- The worked GGA sentence from the specification. -/
def ggaExample : String :=
  "$GPGGA,123519,4807.038,N,01131.000,E,1,08,0.9,545.4,M,47.0,M,,*47"

lemma ggaExample_parts : ggaParts ggaExample =
    ["$GPGGA", "123519", "4807.038", "N", "01131.000", "E", "1", "08",
     "0.9", "545.4", "M", "47.0", "M", "", ""] := by
  decide

lemma coord_lat_example : parse_nmea_coordinate "4807.038" "N" = some (481173 / 10000) := by
  unfold parse_nmea_coordinate
  rw [if_neg (by decide : ¬("4807.038" = "" ∨ "N" = ""))]
  rw [show "4807.038".data.findIdx? (fun c => c = '.') = some 4 from by decide]
  dsimp only
  rw [if_neg (by decide : ¬(4 < 2))]
  norm_num [parseDecimalStr,
    show parseIntStr (String.mk ['4', '8']) = some 48 from by decide,
    show parseDecimalParts (String.mk ['0', '7', '.', '0', '3', '8']) = some (false, 7, 38, 3) from by decide,
    show ¬("N" = "S" ∨ "N" = "W") from by decide]

lemma coord_lon_example : parse_nmea_coordinate "01131.000" "E" = some (691 / 60) := by
  unfold parse_nmea_coordinate
  rw [if_neg (by decide : ¬("01131.000" = "" ∨ "E" = ""))]
  rw [show "01131.000".data.findIdx? (fun c => c = '.') = some 5 from by decide]
  dsimp only
  rw [if_neg (by decide : ¬(5 < 2))]
  norm_num [parseDecimalStr,
    show parseIntStr (String.mk ['0', '1', '1']) = some 11 from by decide,
    show parseDecimalParts (String.mk ['3', '1', '.', '0', '0', '0']) = some (false, 31, 0, 3) from by decide,
    show ¬("E" = "S" ∨ "E" = "W") from by decide]

lemma hdop_example : ggaHdop "0.9" = some (9 / 10) := by
  unfold ggaHdop
  rw [if_neg (by decide : ¬("0.9" = ""))]
  norm_num [parseDecimalStr,
    show parseDecimalParts "0.9" = some (false, 0, 9, 1) from by decide]

lemma gga_example_eval :
    parse_nmea_gga ggaExample =
      some { latitude := 481173 / 10000, longitude := 691 / 60, accuracy := 9 / 4 } := by
  unfold parse_nmea_gga
  rw [ggaExample_parts]
  dsimp only
  rw [if_neg (by decide : ¬(([
    "$GPGGA", "123519", "4807.038", "N", "01131.000", "E", "1", "08",
    "0.9", "545.4", "M", "47.0", "M", "", ""] : List String).length < 10))]
  norm_num [List.getD, show ggaQuality "1" = some 1 from by decide,
    coord_lat_example, coord_lon_example, hdop_example]

/-! ## Claim theorems: C5–C8 -/

/-- C5: the claim says a randomized asset joining a matching group updates
`last_seen`/`times_seen` and is promoted to `primary_mac` whenever it is the
most recently seen member.  The first two updates happen, but the promotion
cannot: the code overwrites the group's `last_seen` with `utcnow()` *before*
comparing `asset.last_seen` against it, so at the fixture (group last seen at
50, asset at 100, wall time 200) the asset is strictly the most recent member
and still is not promoted. -/
theorem c5_join_updates_but_promotion_dead :
    c5group.last_seen < c5asset.last_seen ∧
    c5asset.last_seen ≤ (200 : ℚ) ∧
    joinExistingGroup 200 c5asset c5group =
      ({ c5asset with device_group_id := some 7 },
       { c5group with last_seen := 200, times_seen := 4 }) := by
  refine ⟨by norm_num [c5group, c5asset], by norm_num [c5asset], ?_⟩
  norm_num [joinExistingGroup, c5asset, c5group, primaryMacFalsy,
    show ("02:11:22:33:44:55" : String) ≠ "" from by decide]

/-- C6: fingerprint similarity is symmetric and lies in `[0, 1]`, and a
fingerprint with signal, probe-interval, SSID and (truthy) OUI data has
self-similarity exactly 1. -/
theorem c6_similarity_symmetric_bounded_self :
    (∀ fp1 fp2 : DeviceFingerprint,
      calculate_similarity_score fp1 fp2 = calculate_similarity_score fp2 fp1) ∧
    (∀ fp1 fp2 : DeviceFingerprint,
      0 ≤ calculate_similarity_score fp1 fp2 ∧ calculate_similarity_score fp1 fp2 ≤ 1) ∧
    (∀ fp : DeviceFingerprint,
      fp.avg_signal_strength.isSome = true →
      fp.avg_probe_interval.isSome = true →
      fp.common_ssids ≠ [] →
      (∃ v : String, fp.vendor_oui = some v ∧ v ≠ "") →
      calculate_similarity_score fp fp = 1) :=
  ⟨similarity_comm, similarity_bounds,
   fun fp h1 _ h3 hv => by
     obtain ⟨v, hv, hvne⟩ := hv
     exact similarity_self fp h1 h3 v hv hvne⟩

/-- Fixture fingerprint with all four factors populated. -/
def c6fp : DeviceFingerprint :=
  { avg_signal_strength := some (-50), signal_variance := none,
    avg_probe_interval := some 5, probe_time_variance := none,
    vendor_oui := some "AA:BB:CC", device_capabilities := none,
    common_ssids := ["HomeNet"] }

/-- C6 witness: the self-similarity clause applied to the concrete
fixture fingerprint. -/
theorem c6_witness : calculate_similarity_score c6fp c6fp = 1 :=
  c6_similarity_symmetric_bounded_self.2.2 c6fp rfl rfl (by decide)
    ⟨"AA:BB:CC", rfl, by decide⟩

/-- C7: for a MAC string whose first colon-separated group parses as the hex
octet `b`, `is_randomized_mac` is true exactly when bit 1 (value 2) of `b` is
set; first octets 02/06/0A/0E classify as randomized and 00/A4 as not. -/
theorem c7_randomized_iff_bit1 :
    (∀ (mac first : String) (rest : List String) (b : ℕ),
      strSplit mac ':' = first :: rest → parseHexNat first = some b →
      (is_randomized_mac mac = true ↔ b &&& 2 ≠ 0)) ∧
    is_randomized_mac "02:00:00:00:00:00" = true ∧
    is_randomized_mac "06:12:34:56:78:9A" = true ∧
    is_randomized_mac "0A:12:34:56:78:9A" = true ∧
    is_randomized_mac "0E:12:34:56:78:9A" = true ∧
    is_randomized_mac "00:11:22:33:44:55" = false ∧
    is_randomized_mac "A4:5E:60:AA:BB:CC" = false := by
  refine ⟨?_, by decide, by decide, by decide, by decide, by decide, by decide⟩
  intro mac first rest b hsplit hparse
  unfold is_randomized_mac
  rw [hsplit]
  simp only [List.head?_cons, hparse]
  simp [Nat.land]

/-- C7 witness: the generic clause applied to the octet `0x0A = 10`. -/
theorem c7_witness : is_randomized_mac "0A:12:34:56:78:9A" = true ↔ (10 &&& 2 ≠ 0) :=
  c7_randomized_iff_bit1.1 "0A:12:34:56:78:9A" "0A" ["12", "34", "56", "78", "9A"] 10
    (by decide) (by decide)

/-- C8: a GGA sentence whose fix-quality field reads 0 parses to `none`; a
successful parse carries accuracy `HDOP * 2.5` and coordinates produced by
the degrees+minutes conversion; the `S`/`W` hemispheres flip the coordinate
sign; and the specification's worked example parses to
latitude 48.1173 (exactly) and longitude 691/60 ≈ 11.5167, accuracy 2.25 m. -/
theorem c8_gga_parsing :
    (∀ s : String, ggaQuality ((ggaParts s).getD 6 "") = some 0 →
      parse_nmea_gga s = none) ∧
    (∀ (s : String) (loc : GeoLocation), parse_nmea_gga s = some loc →
      ∃ hd : ℚ, ggaHdop ((ggaParts s).getD 8 "") = some hd ∧
        loc.accuracy = hd * 2.5 ∧
        parse_nmea_coordinate ((ggaParts s).getD 2 "") ((ggaParts s).getD 3 "") = some loc.latitude ∧
        parse_nmea_coordinate ((ggaParts s).getD 4 "") ((ggaParts s).getD 5 "") = some loc.longitude) ∧
    (∀ coord : String,
      parse_nmea_coordinate coord "S" = (parse_nmea_coordinate coord "N").map (fun q => -q) ∧
      parse_nmea_coordinate coord "W" = (parse_nmea_coordinate coord "E").map (fun q => -q)) ∧
    (parse_nmea_gga ggaExample =
        some { latitude := 481173 / 10000, longitude := 691 / 60, accuracy := 9 / 4 } ∧
      |(481173 / 10000 : ℚ) - 48.1173| < 1 / 10000 ∧
      |(691 / 60 : ℚ) - 11.5167| < 1 / 10000 ∧
      (9 / 4 : ℚ) = 0.9 * 2.5) :=
  ⟨gga_quality_zero_none, gga_some_shape, nmea_sign_flip,
   gga_example_eval, by norm_num, by rw [abs_lt]; constructor <;> norm_num, by norm_num⟩

/-- C8 witness: a quality-0 variant of the worked sentence yields `none`. -/
theorem c8_witness :
    parse_nmea_gga "$GPGGA,123519,4807.038,N,01131.000,E,0,08,0.9,545.4,M,47.0,M,,*47" = none :=
  c8_gga_parsing.1 "$GPGGA,123519,4807.038,N,01131.000,E,0,08,0.9,545.4,M,47.0,M,,*47" (by decide)

/-! ## Helper lemmas and claim theorems: positioning (C1-C4, C9, C10) -/

lemma atan2_zero_one : atan2 0 1 = 0 := by
  unfold atan2
  rw [if_pos one_pos]
  simp [Real.arctan_zero]

lemma radians_zero : radians 0 = 0 := by
  unfold radians; ring

lemma distance_self (p : GeoPoint) : p.distance_to p = 0 := by
  unfold GeoPoint.distance_to
  dsimp only
  simp only [sub_self, radians_zero, zero_div, Real.sin_zero]
  norm_num [Real.sqrt_zero, Real.sqrt_one, atan2_zero_one]

lemma equator_distance (l dlt : ℝ) (h0 : 0 ≤ dlt) (h1 : dlt < 180) :
    GeoPoint.distance_to { latitude := 0, longitude := l }
      { latitude := 0, longitude := l + dlt } = 6371000 * (dlt * Real.pi / 180) := by
  unfold GeoPoint.distance_to
  dsimp only
  rw [sub_self, add_sub_cancel_left, radians_zero]
  simp only [zero_div, Real.sin_zero, Real.cos_zero, one_mul, zero_pow, zero_add,
    ne_eq, OfNat.ofNat_ne_zero, not_false_iff]
  have hpi := Real.pi_pos
  set t := radians dlt / 2 with ht
  have htv : t = dlt * Real.pi / 360 := by
    rw [ht]; unfold radians; ring
  have ht0 : 0 ≤ t := by
    rw [htv]; positivity
  have htlt : t < Real.pi / 2 := by
    rw [htv]
    rw [div_lt_div_iff₀ (by norm_num) (by norm_num)]
    nlinarith
  have hsin0 : 0 ≤ Real.sin t := Real.sin_nonneg_of_nonneg_of_le_pi ht0 (by linarith)
  have hcos0 : 0 < Real.cos t := Real.cos_pos_of_mem_Ioo ⟨by linarith, htlt⟩
  rw [show (1:ℝ) - Real.sin t ^ 2 = Real.cos t ^ 2 by
    nlinarith [Real.sin_sq_add_cos_sq t]]
  rw [Real.sqrt_sq hsin0, Real.sqrt_sq (le_of_lt hcos0)]
  unfold atan2
  rw [if_pos hcos0]
  rw [← Real.tan_eq_sin_div_cos, Real.arctan_tan (by linarith) htlt]
  rw [htv]; ring

lemma signal_to_distance_bounds (s tx : ℤ) (n : ℝ) :
    0.5 ≤ signal_to_distance s tx n ∧ signal_to_distance s tx n ≤ 100 := by
  unfold signal_to_distance
  by_cases h : tx ≤ s
  · rw [if_pos h]; norm_num
  · rw [if_neg h]
    dsimp only
    refine ⟨le_min (le_max_right _ _) (by norm_num), min_le_right _ _⟩

lemma signal_to_distance_antitone (tx : ℤ) (n : ℝ) (hn : 0 < n) (s1 s2 : ℤ) (h : s1 ≤ s2) :
    signal_to_distance s2 tx n ≤ signal_to_distance s1 tx n := by
  unfold signal_to_distance
  by_cases h2 : tx ≤ s2
  · rw [if_pos h2]
    by_cases h1 : tx ≤ s1
    · rw [if_pos h1]
    · rw [if_neg h1]
      dsimp only
      exact le_min (le_max_right _ _) (by norm_num)
  · have h1 : ¬ tx ≤ s1 := fun hc => h2 (hc.trans h)
    rw [if_neg h2, if_neg h1]
    dsimp only
    have hs : (s1:ℝ) ≤ (s2:ℝ) := by exact_mod_cast h
    have hexp : ((tx:ℝ) - (s2:ℝ)) / (10 * n) ≤ ((tx:ℝ) - (s1:ℝ)) / (10 * n) :=
      div_le_div_of_nonneg_right (by linarith) (by linarith)
    have hpow := Real.rpow_le_rpow_of_exponent_le (by norm_num : (1:ℝ) ≤ 10) hexp
    exact min_le_min (max_le_max hpow le_rfl) le_rfl

lemma signal_to_distance_at_tx (tx : ℤ) (n : ℝ) : signal_to_distance tx tx n = 0.5 := by
  unfold signal_to_distance
  rw [if_pos (le_refl tx)]

lemma bilaterate_some_confidence (r1 r2 : MonitorReading) (pref : Option GeoPoint)
    (e : PositionEstimate) (h : bilaterate r1 r2 pref = some e) :
    e.confidence = 0.3 ∨ e.confidence = 0.4 ∨ e.confidence = 0.7 ∨ e.confidence = 0.5 := by
  unfold bilaterate at h
  dsimp only at h
  split_ifs at h
  all_goals (have he := Option.some.inj h; subst he; simp)

lemma bilaterate_coincident (r1 r2 : MonitorReading) (pref : Option GeoPoint)
    (h : r1.monitor_location = r2.monitor_location) :
    bilaterate r1 r2 pref = none := by
  unfold bilaterate
  dsimp only
  rw [h, distance_self, if_pos rfl]

lemma calculate_position_pair (r1 r2 : MonitorReading) (hc : Option GeoPoint) :
    calculate_position [r1, r2] hc = bilaterate r1 r2 hc := rfl

lemma bilaterate_disjoint (r1 r2 : MonitorReading) (pref : Option GeoPoint)
    (h1 : 0 < modeledDistance r1) (h2 : 0 < modeledDistance r2)
    (hd : modeledDistance r1 + modeledDistance r2 <
      r1.monitor_location.distance_to r2.monitor_location) :
    bilaterate r1 r2 pref = some
      { location := r1.monitor_location.point_at_distance_and_bearing
          ((r1.monitor_location.distance_to r2.monitor_location) *
            (1 - modeledDistance r1 / (modeledDistance r1 + modeledDistance r2)))
          (r1.monitor_location.bearing_to r2.monitor_location),
        accuracy := max (modeledDistance r1) (modeledDistance r2),
        confidence := 0.3 } := by
  unfold bilaterate
  dsimp only
  have hmd : r1.monitor_location.distance_to r2.monitor_location ≠ 0 :=
    ne_of_gt (lt_trans (by linarith) hd)
  rw [if_neg hmd, if_pos hd, if_pos (by linarith : (0:ℝ) < modeledDistance r1 + modeledDistance r2)]

lemma bilaterate_nested (r1 r2 : MonitorReading) (pref : Option GeoPoint)
    (hmd0 : r1.monitor_location.distance_to r2.monitor_location ≠ 0)
    (hnd : ¬ (modeledDistance r1 + modeledDistance r2 <
      r1.monitor_location.distance_to r2.monitor_location))
    (hin : r1.monitor_location.distance_to r2.monitor_location <
      |modeledDistance r1 - modeledDistance r2|)
    (h12 : modeledDistance r1 < modeledDistance r2) :
    bilaterate r1 r2 pref = some
      { location := r1.monitor_location.point_at_distance_and_bearing (modeledDistance r1)
          (r1.monitor_location.bearing_to r2.monitor_location),
        accuracy := min (modeledDistance r1) (modeledDistance r2),
        confidence := 0.4 } := by
  unfold bilaterate
  dsimp only
  rw [if_neg hmd0, if_neg hnd, if_pos hin, if_pos h12]

lemma modeledDistance_some_zero (p : GeoPoint) (s : ℤ) :
    modeledDistance { monitor_location := p, signal_strength := s, estimated_distance := some 0 } =
    modeledDistance { monitor_location := p, signal_strength := s, estimated_distance := none } := by
  simp [modeledDistance]

lemma modeledDistance_some_ne (p : GeoPoint) (s : ℤ) (d : ℝ) (hd : d ≠ 0) :
    modeledDistance { monitor_location := p, signal_strength := s, estimated_distance := some d } = d := by
  simp [modeledDistance, hd]

lemma modeledDistance_none (p : GeoPoint) (s : ℤ) :
    modeledDistance { monitor_location := p, signal_strength := s, estimated_distance := none } =
      signal_to_distance s (-59) 3 := rfl

lemma bilaterate_congr_left (r1 r1' r2 : MonitorReading) (pref : Option GeoPoint)
    (hd : modeledDistance r1 = modeledDistance r1')
    (hp : r1.monitor_location = r1'.monitor_location) :
    bilaterate r1 r2 pref = bilaterate r1' r2 pref := by
  unfold bilaterate
  rw [hd, hp]

lemma bilaterate_congr_right (r1 r2 r2' : MonitorReading) (pref : Option GeoPoint)
    (hd : modeledDistance r2 = modeledDistance r2')
    (hp : r2.monitor_location = r2'.monitor_location) :
    bilaterate r1 r2 pref = bilaterate r1 r2' pref := by
  unfold bilaterate
  rw [hd, hp]

lemma calculate_position_single (r : MonitorReading) (hc : Option GeoPoint) :
    calculate_position [r] hc = some
      { location := r.monitor_location.point_at_distance_and_bearing (modeledDistance r) 0,
        accuracy := modeledDistance r * 2,
        confidence := 0.2 } := rfl

lemma dist_one_degree :
    GeoPoint.distance_to { latitude := 0, longitude := 0 } { latitude := 0, longitude := 1 } =
      6371000 * (Real.pi / 180) := by
  have h := equator_distance 0 1 (by norm_num) (by norm_num)
  norm_num at h
  rw [h]

lemma dist_one_degree_large :
    (106000 : ℝ) < GeoPoint.distance_to { latitude := 0, longitude := 0 } { latitude := 0, longitude := 1 } := by
  rw [dist_one_degree]
  nlinarith [Real.pi_gt_d6]

lemma dist_c2 :
    GeoPoint.distance_to { latitude := 0, longitude := 0 } { latitude := 0, longitude := 1/10000 } =
      6371000 * ((1/10000) * Real.pi / 180) := by
  have h := equator_distance 0 (1/10000) (by norm_num) (by norm_num)
  norm_num at h ⊢
  rw [h]

lemma dist_c2_bounds :
    (11 : ℝ) < GeoPoint.distance_to { latitude := 0, longitude := 0 } { latitude := 0, longitude := 1/10000 } ∧
    GeoPoint.distance_to { latitude := 0, longitude := 0 } { latitude := 0, longitude := 1/10000 } < 12 := by
  rw [dist_c2]
  constructor
  · nlinarith [Real.pi_gt_d6]
  · nlinarith [Real.pi_lt_d2]

lemma signal_neg60 :
    signal_to_distance (-60) (-59) 3 = (10:ℝ) ^ ((1:ℝ)/30) ∧
    (1:ℝ) ≤ (10:ℝ) ^ ((1:ℝ)/30) ∧ (10:ℝ) ^ ((1:ℝ)/30) ≤ 10 := by
  have hlow : (1:ℝ) ≤ (10:ℝ) ^ ((1:ℝ)/30) := by
    have := Real.rpow_le_rpow_of_exponent_le (by norm_num : (1:ℝ) ≤ 10)
      (by norm_num : (0:ℝ) ≤ 1/30)
    rwa [Real.rpow_zero] at this
  have hhigh : (10:ℝ) ^ ((1:ℝ)/30) ≤ 10 := by
    have := Real.rpow_le_rpow_of_exponent_le (by norm_num : (1:ℝ) ≤ 10)
      (by norm_num : (1:ℝ)/30 ≤ 1)
    rwa [Real.rpow_one] at this
  refine ⟨?_, hlow, hhigh⟩
  unfold signal_to_distance
  rw [if_neg (by norm_num)]
  dsimp only
  rw [show (((-59:ℤ):ℝ) - ((-60:ℤ):ℝ)) / (10 * 3) = (1:ℝ)/30 by push_cast; ring]
  rw [max_eq_left (by linarith), min_eq_left (by linarith)]

lemma signal_neg359 : signal_to_distance (-359) (-59) 3 = 100 := by
  unfold signal_to_distance
  rw [if_neg (by norm_num)]
  dsimp only
  rw [show (((-59:ℤ):ℝ) - ((-359:ℤ):ℝ)) / (10 * 3) = (10:ℝ) by push_cast; ring]
  have h100 : (100:ℝ) ≤ (10:ℝ) ^ (10:ℝ) := by
    have h2 : (10:ℝ) ^ (2:ℝ) ≤ (10:ℝ) ^ (10:ℝ) :=
      Real.rpow_le_rpow_of_exponent_le (by norm_num) (by norm_num)
    have he : (10:ℝ) ^ (2:ℝ) = 100 := by
      rw [show (2:ℝ) = ((2:ℕ):ℝ) by norm_num, Real.rpow_natCast]
      norm_num
    linarith
  rw [max_eq_left (by linarith), min_eq_right (by linarith)]

noncomputable def c2r1 : MonitorReading :=
  { monitor_location := { latitude := 0, longitude := 0 },
    signal_strength := -50, estimated_distance := none }

noncomputable def c2r2 : MonitorReading :=
  { monitor_location := { latitude := 0, longitude := 1/10000 },
    signal_strength := -359, estimated_distance := none }

lemma c2_d1 : modeledDistance c2r1 = 0.5 := by
  show signal_to_distance (-50) (-59) 3 = 0.5
  unfold signal_to_distance
  rw [if_pos (by norm_num)]

lemma c2_d2 : modeledDistance c2r2 = 100 := signal_neg359

lemma c2_eval : bilaterate c2r1 c2r2 none = some
    { location := GeoPoint.point_at_distance_and_bearing
        { latitude := 0, longitude := 0 } (modeledDistance c2r1)
        (GeoPoint.bearing_to { latitude := 0, longitude := 0 } { latitude := 0, longitude := 1/10000 }),
      accuracy := min (modeledDistance c2r1) (modeledDistance c2r2),
      confidence := 0.4 } := by
  have hb := dist_c2_bounds
  apply bilaterate_nested
  · show GeoPoint.distance_to _ _ ≠ 0
    exact ne_of_gt (lt_trans (by norm_num) hb.1)
  · show ¬ (modeledDistance c2r1 + modeledDistance c2r2 < _)
    rw [c2_d1, c2_d2]
    push_neg
    exact le_of_lt (lt_trans hb.2 (by norm_num))
  · show GeoPoint.distance_to _ _ < |modeledDistance c2r1 - modeledDistance c2r2|
    rw [c2_d1, c2_d2]
    rw [show |(0.5:ℝ) - 100| = 99.5 by rw [abs_of_nonpos] <;> norm_num]
    exact lt_trans hb.2 (by norm_num)
  · rw [c2_d1, c2_d2]; norm_num

lemma bilaterate_conf_bounds (r1 r2 : MonitorReading) (pref : Option GeoPoint)
    (e : PositionEstimate) (h : bilaterate r1 r2 pref = some e) :
    0 ≤ e.confidence ∧ e.confidence ≤ 1 := by
  rcases bilaterate_some_confidence r1 r2 pref e h with hc | hc | hc | hc <;>
    rw [hc] <;> norm_num

lemma bilaterate_intersection_accuracy (r1 r2 : MonitorReading) (pref : Option GeoPoint)
    (e : PositionEstimate) (h : bilaterate r1 r2 pref = some e)
    (hnd : ¬ (modeledDistance r1 + modeledDistance r2 <
      r1.monitor_location.distance_to r2.monitor_location))
    (hni : ¬ (r1.monitor_location.distance_to r2.monitor_location <
      |modeledDistance r1 - modeledDistance r2|)) :
    1 ≤ e.accuracy := by
  unfold bilaterate at h
  dsimp only at h
  by_cases hmd : r1.monitor_location.distance_to r2.monitor_location = 0
  · rw [if_pos hmd] at h
    exact Option.noConfusion h
  · rw [if_neg hmd, if_neg hnd, if_neg hni] at h
    have he := Option.some.inj h
    subst he
    exact le_max_right _ _

lemma pairEstimates_conf_ge (rs : List MonitorReading) (hc : Option GeoPoint)
    (e : PositionEstimate) (he : e ∈ pairEstimates rs hc) :
    0.3 ≤ e.confidence := by
  unfold pairEstimates at he
  rw [List.mem_filterMap] at he
  obtain ⟨pr, _, hb⟩ := he
  rcases bilaterate_some_confidence pr.1 pr.2 hc e hb with h | h | h | h <;>
    rw [h] <;> norm_num

lemma calculate_position_many (a b c : MonitorReading) (t : List MonitorReading)
    (hc : Option GeoPoint) :
    calculate_position (a :: b :: c :: t) hc =
      (let estimates := pairEstimates (a :: b :: c :: t) hc
       if estimates.isEmpty then none
       else
         let total_weight := (estimates.map (fun e => e.confidence)).sum
         if total_weight = 0 then none
         else
           let avg_lat := (estimates.map (fun e => e.location.latitude * e.confidence)).sum / total_weight
           let avg_lon := (estimates.map (fun e => e.location.longitude * e.confidence)).sum / total_weight
           let avg_accuracy := (estimates.map (fun e => e.accuracy * e.confidence)).sum / total_weight
           some { location := { latitude := avg_lat, longitude := avg_lon },
                  accuracy := avg_accuracy,
                  confidence := min 1 (total_weight / (estimates.length : ℝ)) }) := rfl

lemma total_weight_pos (rs : List MonitorReading) (hc : Option GeoPoint)
    (hne : pairEstimates rs hc ≠ []) :
    0 < ((pairEstimates rs hc).map (fun e => e.confidence)).sum := by
  apply List.sum_pos
  · intro x hx
    rw [List.mem_map] at hx
    obtain ⟨e, he, rfl⟩ := hx
    exact lt_of_lt_of_le (by norm_num) (pairEstimates_conf_ge rs hc e he)
  · simpa using hne

lemma calculate_position_conf_bounds (rs : List MonitorReading) (hc : Option GeoPoint)
    (e : PositionEstimate) (h : calculate_position rs hc = some e) :
    0 ≤ e.confidence ∧ e.confidence ≤ 1 := by
  rcases rs with _ | ⟨a, _ | ⟨b, _ | ⟨c, t⟩⟩⟩
  · exact Option.noConfusion h
  · rw [calculate_position_single] at h
    have he := Option.some.inj h
    subst he
    norm_num
  · rw [calculate_position_pair] at h
    exact bilaterate_conf_bounds a b hc e h
  · rw [calculate_position_many] at h
    dsimp only at h
    by_cases hemp : (pairEstimates (a :: b :: c :: t) hc).isEmpty
    · rw [if_pos hemp] at h
      exact Option.noConfusion h
    · rw [if_neg hemp] at h
      have hne : pairEstimates (a :: b :: c :: t) hc ≠ [] := by
        simpa [List.isEmpty_iff] using hemp
      have hpos := total_weight_pos (a :: b :: c :: t) hc hne
      rw [if_neg (ne_of_gt hpos)] at h
      have he := Option.some.inj h
      subst he
      constructor
      · dsimp only
        exact le_min (by norm_num) (div_nonneg (le_of_lt hpos) (Nat.cast_nonneg _))
      · exact min_le_left _ _

lemma calculate_position_centroid (rs : List MonitorReading) (hc : Option GeoPoint)
    (h3 : 3 ≤ rs.length) :
    (pairEstimates rs hc = [] → calculate_position rs hc = none) ∧
    (pairEstimates rs hc ≠ [] →
      calculate_position rs hc = some
        { location :=
            { latitude := ((pairEstimates rs hc).map (fun e => e.location.latitude * e.confidence)).sum /
                ((pairEstimates rs hc).map (fun e => e.confidence)).sum,
              longitude := ((pairEstimates rs hc).map (fun e => e.location.longitude * e.confidence)).sum /
                ((pairEstimates rs hc).map (fun e => e.confidence)).sum },
          accuracy := ((pairEstimates rs hc).map (fun e => e.accuracy * e.confidence)).sum /
            ((pairEstimates rs hc).map (fun e => e.confidence)).sum,
          confidence := min 1 (((pairEstimates rs hc).map (fun e => e.confidence)).sum /
            ((pairEstimates rs hc).length : ℝ)) }) := by
  rcases rs with _ | ⟨a, _ | ⟨b, _ | ⟨c, t⟩⟩⟩
  · norm_num at h3
  · norm_num at h3
  · norm_num at h3
  · constructor
    · intro hemp
      rw [calculate_position_many]
      dsimp only
      rw [if_pos (by simpa [List.isEmpty_iff] using hemp)]
    · intro hne
      have hpos := total_weight_pos (a :: b :: c :: t) hc hne
      rw [calculate_position_many]
      dsimp only
      rw [if_neg (by simpa [List.isEmpty_iff] using hne), if_neg (ne_of_gt hpos)]

noncomputable def c1a : MonitorReading :=
  { monitor_location := { latitude := 0, longitude := 0 },
    signal_strength := -60, estimated_distance := none }

noncomputable def c1c : MonitorReading :=
  { monitor_location := { latitude := 0, longitude := 1 },
    signal_strength := -60, estimated_distance := none }

noncomputable def c1estimate : PositionEstimate :=
  { location := GeoPoint.point_at_distance_and_bearing
      { latitude := 0, longitude := 0 }
      ((GeoPoint.distance_to { latitude := 0, longitude := 0 } { latitude := 0, longitude := 1 }) *
        (1 - modeledDistance c1a / (modeledDistance c1a + modeledDistance c1c)))
      (GeoPoint.bearing_to { latitude := 0, longitude := 0 } { latitude := 0, longitude := 1 }),
    accuracy := max (modeledDistance c1a) (modeledDistance c1c),
    confidence := 0.3 }

lemma c1_d : modeledDistance c1a = (10:ℝ) ^ ((1:ℝ)/30) ∧ modeledDistance c1c = (10:ℝ) ^ ((1:ℝ)/30) := by
  exact ⟨signal_neg60.1, signal_neg60.1⟩

lemma c1_pair_ac : bilaterate c1a c1c none = some c1estimate := by
  obtain ⟨hd, hlow, hhigh⟩ := signal_neg60
  have hda : modeledDistance c1a = (10:ℝ) ^ ((1:ℝ)/30) := hd
  have hdc : modeledDistance c1c = (10:ℝ) ^ ((1:ℝ)/30) := hd
  apply bilaterate_disjoint
  · rw [hda]; linarith
  · rw [hdc]; linarith
  · show modeledDistance c1a + modeledDistance c1c < GeoPoint.distance_to _ _
    rw [hda, hdc]
    have := dist_one_degree_large
    calc (10:ℝ) ^ ((1:ℝ)/30) + (10:ℝ) ^ ((1:ℝ)/30) ≤ 10 + 10 := by linarith
    _ < 106000 := by norm_num
    _ < _ := dist_one_degree_large

lemma c1_pair_aa : bilaterate c1a c1a none = none :=
  bilaterate_coincident c1a c1a none rfl

lemma c1_pairEstimates : pairEstimates [c1a, c1a, c1c] none = [c1estimate, c1estimate] := by
  unfold pairEstimates allPairs
  simp [List.filterMap, c1_pair_aa, c1_pair_ac]

lemma c1_eval :
    (calculate_position [c1a, c1a, c1c] none).map (fun e => e.confidence) =
      some (min 1 ((0.3 + 0.3) / 2)) := by
  have h := (calculate_position_centroid [c1a, c1a, c1c] none (by norm_num)).2
    (by rw [c1_pairEstimates]; simp)
  rw [c1_pairEstimates] at h
  rw [h]
  dsimp only [Option.map_some, c1estimate]
  norm_num

noncomputable def c2estimate : PositionEstimate :=
  { location := GeoPoint.point_at_distance_and_bearing
      { latitude := 0, longitude := 0 } (modeledDistance c2r1)
      (GeoPoint.bearing_to { latitude := 0, longitude := 0 } { latitude := 0, longitude := 1/10000 }),
    accuracy := min (modeledDistance c2r1) (modeledDistance c2r2),
    confidence := 0.4 }

lemma c2_eval' : bilaterate c2r1 c2r2 none = some c2estimate := c2_eval

/-- C1 counterexample: for readings at (0,0), (0,0), (0,1) the coincident
pair yields no estimate, so the code divides the total weight 0.6 by the 2
non-null estimates (confidence 0.3), while the claim's divisor — the number
of monitor pairs, 3 choose 2 = 3 — would give 0.2. -/
theorem c1_counterexample :
    (calculate_position [c1a, c1a, c1c] none).map (fun e => e.confidence) =
      some (min 1 ((0.3 + 0.3) / 2)) ∧
    min (1:ℝ) ((0.3 + 0.3) / 2) ≠ min 1 ((0.3 + 0.3) / ((Nat.choose 3 2 : ℕ) : ℝ)) :=
  ⟨c1_eval, by norm_num [Nat.choose]⟩

/-- C1 (amended): for 3+ readings `calculate_position` bilaterates every
unordered pair, combines the non-null estimates as a confidence-weighted
centroid of latitude, longitude and accuracy, and the overall confidence is
`min 1 (total_weight / k)` where `k` is the number of pairs that produced a
non-null estimate (not the number of monitor pairs); the `total_weight = 0`
guard never fires when an estimate exists. -/
theorem c1_amended_thm (rs : List MonitorReading) (hc : Option GeoPoint)
    (h3 : 3 ≤ rs.length) :
    (pairEstimates rs hc = [] → calculate_position rs hc = none) ∧
    (pairEstimates rs hc ≠ [] →
      calculate_position rs hc = some
        { location :=
            { latitude := ((pairEstimates rs hc).map (fun e => e.location.latitude * e.confidence)).sum /
                ((pairEstimates rs hc).map (fun e => e.confidence)).sum,
              longitude := ((pairEstimates rs hc).map (fun e => e.location.longitude * e.confidence)).sum /
                ((pairEstimates rs hc).map (fun e => e.confidence)).sum },
          accuracy := ((pairEstimates rs hc).map (fun e => e.accuracy * e.confidence)).sum /
            ((pairEstimates rs hc).map (fun e => e.confidence)).sum,
          confidence := min 1 (((pairEstimates rs hc).map (fun e => e.confidence)).sum /
            ((pairEstimates rs hc).length : ℝ)) }) :=
  calculate_position_centroid rs hc h3

/-- C1 witness: three coincident readings produce no pairwise estimate and
hence a null position. -/
theorem c1_witness : calculate_position [c1a, c1a, c1a] none = none :=
  (c1_amended_thm [c1a, c1a, c1a] none (by norm_num)).1
    (by unfold pairEstimates; simp [allPairs, c1_pair_aa])

/-- C2 counterexample: a nested-circles input (monitors ≈11 m apart with
modeled radii 0.5 m and 100 m, both from the signal model alone) returns a
non-null estimate whose accuracy is 0.5 m, below the claimed 1.0 m floor. -/
theorem c2_counterexample :
    (bilaterate c2r1 c2r2 none).map (fun e => e.accuracy) = some 0.5 ∧ ¬ (1 ≤ (0.5:ℝ)) := by
  constructor
  · rw [c2_eval']
    dsimp only [Option.map_some, c2estimate]
    rw [c2_d1, c2_d2]
    norm_num
  · norm_num

/-- C2 (amended): every non-null estimate of `bilaterate` and
`calculate_position` has confidence in [0,1]; the accuracy ≥ 1.0 m floor
holds on the true-intersection branch of `bilaterate` (neither disjoint nor
nested circles), but not on the other branches. -/
theorem c2_amended_thm :
    (∀ (r1 r2 : MonitorReading) (pref : Option GeoPoint) (e : PositionEstimate),
      bilaterate r1 r2 pref = some e → 0 ≤ e.confidence ∧ e.confidence ≤ 1) ∧
    (∀ (rs : List MonitorReading) (hc : Option GeoPoint) (e : PositionEstimate),
      calculate_position rs hc = some e → 0 ≤ e.confidence ∧ e.confidence ≤ 1) ∧
    (∀ (r1 r2 : MonitorReading) (pref : Option GeoPoint) (e : PositionEstimate),
      bilaterate r1 r2 pref = some e →
      ¬ (modeledDistance r1 + modeledDistance r2 <
        r1.monitor_location.distance_to r2.monitor_location) →
      ¬ (r1.monitor_location.distance_to r2.monitor_location <
        |modeledDistance r1 - modeledDistance r2|) →
      1 ≤ e.accuracy) :=
  ⟨bilaterate_conf_bounds, calculate_position_conf_bounds, bilaterate_intersection_accuracy⟩

/-- C2 witness: the confidence bound applied to the concrete nested-circles
estimate. -/
theorem c2_witness : 0 ≤ c2estimate.confidence ∧ c2estimate.confidence ≤ 1 :=
  c2_amended_thm.1 c2r1 c2r2 none c2estimate c2_eval'

/-- C3: when the monitor separation exceeds the sum of the two (positive)
modeled distances, `bilaterate` returns a non-null estimate with confidence
exactly 0.3, placed on the geodesic from monitor 1 toward monitor 2 at
distance `d * (1 - d1/(d1+d2))` from monitor 1.  Positivity of the modeled
distances reflects that a distance in meters is positive: the signal model
yields values in [0.5, 100] and stored estimated distances are positive. -/
theorem c3_thm (r1 r2 : MonitorReading) (pref : Option GeoPoint)
    (h1 : 0 < modeledDistance r1) (h2 : 0 < modeledDistance r2)
    (hd : modeledDistance r1 + modeledDistance r2 <
      r1.monitor_location.distance_to r2.monitor_location) :
    bilaterate r1 r2 pref = some
      { location := r1.monitor_location.point_at_distance_and_bearing
          ((r1.monitor_location.distance_to r2.monitor_location) *
            (1 - modeledDistance r1 / (modeledDistance r1 + modeledDistance r2)))
          (r1.monitor_location.bearing_to r2.monitor_location),
        accuracy := max (modeledDistance r1) (modeledDistance r2),
        confidence := 0.3 } :=
  bilaterate_disjoint r1 r2 pref h1 h2 hd

noncomputable def c3r1 : MonitorReading :=
  { monitor_location := { latitude := 0, longitude := 0 },
    signal_strength := -60, estimated_distance := some 5 }

noncomputable def c3r2 : MonitorReading :=
  { monitor_location := { latitude := 0, longitude := 1 },
    signal_strength := -60, estimated_distance := some 5 }

lemma c3_d1 : modeledDistance c3r1 = 5 := modeledDistance_some_ne _ _ _ (by norm_num)

lemma c3_d2 : modeledDistance c3r2 = 5 := modeledDistance_some_ne _ _ _ (by norm_num)

/-- C3 witness: monitors one degree of longitude apart on the equator with
5 m modeled radii are disjoint circles. -/
theorem c3_witness :
    bilaterate c3r1 c3r2 none = some
      { location := c3r1.monitor_location.point_at_distance_and_bearing
          ((c3r1.monitor_location.distance_to c3r2.monitor_location) *
            (1 - modeledDistance c3r1 / (modeledDistance c3r1 + modeledDistance c3r2)))
          (c3r1.monitor_location.bearing_to c3r2.monitor_location),
        accuracy := max (modeledDistance c3r1) (modeledDistance c3r2),
        confidence := 0.3 } :=
  c3_thm c3r1 c3r2 none
    (by rw [c3_d1]; norm_num)
    (by rw [c3_d2]; norm_num)
    (by rw [c3_d1, c3_d2]
        show (5:ℝ) + 5 < GeoPoint.distance_to { latitude := 0, longitude := 0 } { latitude := 0, longitude := 1 }
        calc (5:ℝ) + 5 < 106000 := by norm_num
        _ < _ := dist_one_degree_large)

/-- C4: with any reference power and positive path-loss exponent,
`signal_to_distance` is antitone in the signal, equals 0.5 at the reference
power, and always lies in [0.5, 100]. -/
theorem c4_thm (tx : ℤ) (n : ℝ) (hn : 0 < n) :
    (∀ s1 s2 : ℤ, s1 ≤ s2 → signal_to_distance s2 tx n ≤ signal_to_distance s1 tx n) ∧
    signal_to_distance tx tx n = 0.5 ∧
    (∀ s : ℤ, 0.5 ≤ signal_to_distance s tx n ∧ signal_to_distance s tx n ≤ 100) :=
  ⟨signal_to_distance_antitone tx n hn, signal_to_distance_at_tx tx n,
   fun s => signal_to_distance_bounds s tx n⟩

/-- C4 witness: the three clauses at the default calibration (−59 dBm,
exponent 3) and concrete signal values. -/
theorem c4_witness :
    signal_to_distance (-60) (-59) 3 ≤ signal_to_distance (-70) (-59) 3 ∧
    signal_to_distance (-59) (-59) 3 = 0.5 ∧
    (0.5 ≤ signal_to_distance (-80) (-59) 3 ∧ signal_to_distance (-80) (-59) 3 ≤ 100) :=
  ⟨(c4_thm (-59) 3 (by norm_num)).1 (-70) (-60) (by norm_num),
   (c4_thm (-59) 3 (by norm_num)).2.1,
   (c4_thm (-59) 3 (by norm_num)).2.2 (-80)⟩

/-- C9: readings whose monitor locations are identical (Haversine distance
0) make `bilaterate` — and `calculate_position` on exactly those two
readings — return `none` rather than raising. -/
theorem c9_thm (r1 r2 : MonitorReading) (pref : Option GeoPoint) (hc : Option GeoPoint)
    (h : r1.monitor_location = r2.monitor_location) :
    bilaterate r1 r2 pref = none ∧ calculate_position [r1, r2] hc = none :=
  ⟨bilaterate_coincident r1 r2 pref h,
   by rw [calculate_position_pair]; exact bilaterate_coincident r1 r2 hc h⟩

/-- C9 witness: two copies of the same reading. -/
theorem c9_witness : bilaterate c1a c1a none = none ∧ calculate_position [c1a, c1a] none = none :=
  c9_thm c1a c1a none none rfl

/-- C10: in `bilaterate` and the single-reading branch of
`calculate_position`, an `estimated_distance` of 0.0 is treated exactly like
a missing one (the Python `or` falls through to the signal model), while any
strictly positive stored distance is used as-is and the signal value becomes
irrelevant. -/
theorem c10_thm :
    (∀ (p : GeoPoint) (s : ℤ) (r2 : MonitorReading) (pref : Option GeoPoint),
      bilaterate { monitor_location := p, signal_strength := s, estimated_distance := some 0 } r2 pref =
      bilaterate { monitor_location := p, signal_strength := s, estimated_distance := none } r2 pref) ∧
    (∀ (p : GeoPoint) (s : ℤ) (r1 : MonitorReading) (pref : Option GeoPoint),
      bilaterate r1 { monitor_location := p, signal_strength := s, estimated_distance := some 0 } pref =
      bilaterate r1 { monitor_location := p, signal_strength := s, estimated_distance := none } pref) ∧
    (∀ (p : GeoPoint) (s : ℤ) (hc : Option GeoPoint),
      calculate_position [{ monitor_location := p, signal_strength := s, estimated_distance := some 0 }] hc =
      calculate_position [{ monitor_location := p, signal_strength := s, estimated_distance := none }] hc) ∧
    (∀ (p : GeoPoint) (s s' : ℤ) (d : ℝ) (r2 : MonitorReading) (pref : Option GeoPoint), 0 < d →
      bilaterate { monitor_location := p, signal_strength := s, estimated_distance := some d } r2 pref =
      bilaterate { monitor_location := p, signal_strength := s', estimated_distance := some d } r2 pref) ∧
    (∀ (p : GeoPoint) (s s' : ℤ) (d : ℝ) (hc : Option GeoPoint), 0 < d →
      calculate_position [{ monitor_location := p, signal_strength := s, estimated_distance := some d }] hc =
      calculate_position [{ monitor_location := p, signal_strength := s', estimated_distance := some d }] hc) := by
  refine ⟨?_, ?_, ?_, ?_, ?_⟩
  · intro p s r2 pref
    exact bilaterate_congr_left _ _ r2 pref (modeledDistance_some_zero p s) rfl
  · intro p s r1 pref
    exact bilaterate_congr_right r1 _ _ pref (modeledDistance_some_zero p s) rfl
  · intro p s hc
    rw [calculate_position_single, calculate_position_single, modeledDistance_some_zero p s]
  · intro p s s' d r2 pref hd
    exact bilaterate_congr_left _ _ r2 pref
      (by rw [modeledDistance_some_ne p s d (ne_of_gt hd), modeledDistance_some_ne p s' d (ne_of_gt hd)])
      rfl
  · intro p s s' d hc hd
    rw [calculate_position_single, calculate_position_single,
      modeledDistance_some_ne p s d (ne_of_gt hd), modeledDistance_some_ne p s' d (ne_of_gt hd)]

/-- C10 witness: with a stored 5 m distance, readings differing only in
signal strength bilaterate identically. -/
theorem c10_witness :
    bilaterate ({ monitor_location := { latitude := 0, longitude := 0 },
                  signal_strength := -60,
                  estimated_distance := some 5 } : MonitorReading) c1c none =
    bilaterate ({ monitor_location := { latitude := 0, longitude := 0 },
                  signal_strength := -55,
                  estimated_distance := some 5 } : MonitorReading) c1c none :=
  c10_thm.2.2.2.1 { latitude := 0, longitude := 0 } (-60) (-55) 5 c1c none (by norm_num)
